import Mathlib

/-!
Verification of the sanjou offline-first synchronization core: a shallow
of the synchronization machinery of the sanjou repository,
together with proofs settling the frozen claims about it.

The embedding covers:

* `CompletionSync` — the completion relay (`src/sync/completionSync.ts`):
  the in-memory pending queue, the dedup staging against the shared
  completions file, the retry ceiling, and the exponential backoff delay.
* `FirebaseSync` — the remote reconciler (`src/sync/firebaseSync.ts`):
  the snapshot (pull) handler, the document-update (push) handler, echo
  suppression by client id, and the sync-state transitions on failure.
* `YjsProvider` — the replicated document (`src/sync/yjsProvider.ts` and
  the entity model): blocks/breaks as sequences updated by an atomic
  delete+insert transaction, id-keyed maps for the other collections,
  and `completeBlock` from `src/hooks/useBlocks.ts`.
* `SubeteTasks` — the external task importer (`useSubeteTasks`):
  the retried shared-file read, the `refresh` poll step, and the
  priority sort by value/time ratio.

Effectful boundaries (file system, Firestore, timers, `Math.random`) are
made explicit parameters: a file read is an inductive describing what the
read returned, a write is a boolean saying whether it succeeded, and the
jitter is a rational in `[0, 1)`.
-/

namespace CompletionSync

/-- The `TaskCompletion` record (completionSync.ts, lines 15-20): one entry of the
shared completions file. -/
structure TaskCompletion where
  taskId : String
  completedAt : String
  duration : Int
  blockId : Option String
deriving DecidableEq

/-- The `QueuedCompletion` record (lines 23-26): a pending item of the in-memory
queue, a `TaskCompletion` plus retry bookkeeping. -/
structure QueuedCompletion where
  taskId : String
  completedAt : String
  duration : Int
  blockId : Option String
  retryCount : Nat
  queuedAt : Nat
deriving DecidableEq

/-- Constant `MAX_RETRIES` (line 30). -/
def MAX_RETRIES : Nat := 5

/-- Constant `BASE_RETRY_DELAY_MS` (line 31). -/
def BASE_RETRY_DELAY_MS : ℚ := 1000

/-- Constant `MAX_RETRY_DELAY_MS` (line 32). -/
def MAX_RETRY_DELAY_MS : ℚ := 30000

/-- The dedup key `${taskId}-${completedAt}` used at lines 137 and 144. -/
def dedupKey (taskId completedAt : String) : String :=
  taskId ++ "-" ++ completedAt

/-- Function `getRetryDelay` (lines 111-118).  `jitter` stands for the value of
`Math.random()`, a number in `[0, 1)`; the returned delay is
`min(BASE * 2 ^ retryCount, MAX) + jitter * 1000`.  Note the cap is
applied before the jitter is added. -/
def getRetryDelay (retryCount : Nat) (jitter : ℚ) : ℚ :=
  min (BASE_RETRY_DELAY_MS * 2 ^ retryCount) MAX_RETRY_DELAY_MS + jitter * 1000

/-- What reading the shared completions file produced, the effectful
input of `readExistingCompletions` (lines 77-91): the file may be
missing, `readTextFile` may throw, `JSON.parse` may throw, or the parsed
value may or may not be an array. -/
inductive FileRead where
  | missing
  | readFailure
  | parseFailure
  | parsedNonArray
  | parsedArray (cs : List TaskCompletion)
deriving DecidableEq

/-- Function `readExistingCompletions` (lines 77-91): every outcome other than a
parsed array yields the empty list — the missing-file early return, the
`catch` around the read/parse, and the `Array.isArray` check. -/
def readExistingCompletions : FileRead → List TaskCompletion
  | .parsedArray cs => cs
  | _ => []

/-- The projection of a queued item written to the file (lines 146-151). -/
def QueuedCompletion.toCompletion (q : QueuedCompletion) : TaskCompletion :=
  { taskId := q.taskId, completedAt := q.completedAt
    duration := q.duration, blockId := q.blockId }

/-- The `existingKeys` set (lines 136-138), as the list of keys. -/
def existingKeys (existing : List TaskCompletion) : List String :=
  existing.map (fun c => dedupKey c.taskId c.completedAt)

/-- The staging loop (lines 140-153): queued items whose dedup key is not
already present in the file are staged, in queue order.  The key set is
computed once from the file and not extended while staging, exactly as in
the source. -/
def stageNew (queue : List QueuedCompletion) (existing : List TaskCompletion) :
    List TaskCompletion :=
  (queue.filter
      (fun q => !((existingKeys existing).contains (dedupKey q.taskId q.completedAt)))).map
    QueuedCompletion.toCompletion

/-- The expression `Math.min(...pendingQueue.map(q => q.retryCount))` (line 185), defined
on a nonempty queue; `0` is a placeholder for the unreachable empty case. -/
def minRetryCount : List QueuedCompletion → Nat
  | [] => 0
  | q :: rest => rest.foldl (fun m x => min m x.retryCount) q.retryCount

/-- The module-level mutable state of the relay: the pending queue and
the scheduled retry timer.  `retryTimer = some n` records that one retry
is scheduled, from a minimum retry count of `n` (there is a single timer
slot: scheduling replaces, i.e. cancels, any previous timer, lines
188-195). -/
structure RelayState where
  pendingQueue : List QueuedCompletion
  retryTimer : Option Nat
deriving DecidableEq

/-- Result of one `processQueue` run: the new module state and, when the
file write happened, the full content written. -/
structure RunResult where
  state : RelayState
  written : Option (List TaskCompletion)
deriving DecidableEq

/-- One run of `processQueue` (lines 124-202).  `file` is what the read
of the shared file produced and `writeOk` says whether
`writeCompletionsToFile` succeeded (it throws on failure, line 97-106).

* empty queue: early return (line 125);
* nothing staged: no write is attempted and the queue is cleared
  (`stillPending` is always empty, line 141, 162);
* staged and write succeeds: the file becomes `existing ++ staged` and
  the queue is cleared;
* staged and write throws: items with `retryCount < MAX_RETRIES` are kept
  with the count incremented, the rest are dropped (lines 168-181), and
  if items remain one retry is scheduled from the minimum remaining retry
  count, replacing any previously scheduled timer (lines 184-198). -/
def processQueueRun (s : RelayState) (file : FileRead) (writeOk : Bool) : RunResult :=
  if s.pendingQueue.isEmpty then ⟨s, none⟩
  else
    let existing := readExistingCompletions file
    let newCompletions := stageNew s.pendingQueue existing
    if newCompletions.isEmpty then ⟨{ s with pendingQueue := [] }, none⟩
    else if writeOk then
      ⟨{ s with pendingQueue := [] }, some (existing ++ newCompletions)⟩
    else
      let updatedQueue :=
        (s.pendingQueue.filter (fun q => decide (q.retryCount < MAX_RETRIES))).map
          (fun q => { q with retryCount := q.retryCount + 1 })
      if updatedQueue.isEmpty then ⟨{ s with pendingQueue := [] }, none⟩
      else ⟨{ pendingQueue := updatedQueue
              retryTimer := some (minRetryCount updatedQueue) }, none⟩

/-- One failing run against a missing file (read yields `[]`, write
throws), the repeated-failure scenario of the retry-ceiling claims. -/
def runFailStep (s : RelayState) : RelayState :=
  (processQueueRun s .missing false).state

/-- Number of file entries carrying a given dedup key. -/
def countKey (cs : List TaskCompletion) (key : String) : Nat :=
  (cs.filter (fun c => decide (dedupKey c.taskId c.completedAt = key))).length

end CompletionSync

namespace FirebaseSync

/-- The `SyncState` type (`src/models`): the four reconciler states. -/
inductive SyncState where
  | synced
  | syncing
  | offline
  | error
deriving DecidableEq

/-- The remote sync record as seen by the snapshot handler
(firebaseSync.ts, lines 82-96): the fields it inspects are `update` and
`origin` (`fullState` and `timestamp` are not read on the pull path).
`update = none` models a record without the field. -/
structure RemoteRecord where
  update : Option String
  origin : String
deriving DecidableEq

/-- JavaScript truthiness of `data.update` (line 85): absent (undefined)
and the empty string are falsy. -/
def strTruthy : Option String → Bool
  | none => false
  | some s => !(s == "")

/-- The observable module state of the reconciler: the published sync
state, whether the snapshot subscription (`unsubscribe`, line 22) and the
`ydoc` update listener (line 104) are attached, the number of outbound
`setDoc` pushes issued by the update listener, and the number of remote
updates applied into the document. -/
structure FbState where
  syncState : SyncState
  subAttached : Bool
  pushAttached : Bool
  pushCount : Nat
  appliedCount : Nat
deriving DecidableEq

/-- The snapshot success handler (lines 82-96).  `snap = none` models
`snapshot.exists()` returning false.  The remote update is decoded and
applied (origin `'firebase'`) exactly when `data.update` is truthy and
`data.origin` differs from this replica's client id; afterwards the state
is set to `synced` in every case.  Returns the new state and whether an
apply happened (a decode/apply exception is caught and changes nothing we
track, so an attempted apply is counted as one). -/
def handleSnapshot (clientId : String) (snap : Option RemoteRecord) (s : FbState) :
    FbState × Bool :=
  match snap with
  | some data =>
    if strTruthy data.update && !(data.origin == clientId) then
      ({ s with syncState := .synced, appliedCount := s.appliedCount + 1 }, true)
    else
      ({ s with syncState := .synced }, false)
  | none => ({ s with syncState := .synced }, false)

/-- The snapshot error handler (lines 97-100): it sets the state to
`offline` and nothing else — in particular it does not unsubscribe. -/
def handleSnapshotError (s : FbState) : FbState :=
  { s with syncState := .offline }

/-- The `ydoc` update listener (lines 104-120).  `origin = none` models a
local transaction (null origin); an update applied from the snapshot
handler arrives with origin `'firebase'` and is returned unchanged (line
105).  Otherwise one `setDoc` push is attempted: on success the state
becomes `synced`, on failure `offline`; the listener stays attached
either way. -/
def handlePush (origin : Option String) (pushOk : Bool) (s : FbState) : FbState :=
  if origin == some "firebase" then s
  else if pushOk then
    { s with syncState := .synced, pushCount := s.pushCount + 1 }
  else
    { s with syncState := .offline, pushCount := s.pushCount + 1 }

/-- The asynchronous events hitting the reconciler after setup: a local
document mutation (which fires the update listener with a null origin), a
snapshot delivery, and a snapshot error. -/
inductive FbEv where
  | localMutation (pushOk : Bool)
  | remoteSnapshot (rec : Option RemoteRecord)
  | snapshotError
deriving DecidableEq

/-- One event step.  A snapshot whose update is applied re-fires the
update listener with origin `'firebase'` (`Y.applyUpdate(ydoc, update,
'firebase')`, line 88), which is exactly the echo-suppression path. -/
def fbStep (clientId : String) (s : FbState) : FbEv → FbState
  | .localMutation pushOk => handlePush none pushOk s
  | .remoteSnapshot rec =>
    let r := handleSnapshot clientId rec s
    if r.2 then handlePush (some "firebase") true r.1 else r.1
  | .snapshotError => handleSnapshotError s

/-- A sequence of events processed in order. -/
def fbRun (clientId : String) (s : FbState) (evs : List FbEv) : FbState :=
  evs.foldl (fbStep clientId) s

end FirebaseSync

namespace YjsProvider

/-- The `BlockMeta` entity (`src/models`): the five meta booleans. -/
structure BlockMeta where
  finishLinePictured : Bool
  notInterrupted : Bool
  committedToFocus : Bool
  phoneSeparate : Bool
  celebrated : Bool
deriving DecidableEq

/-- The `Block` entity (`src/models`). -/
structure Block where
  id : String
  date : String
  startedAt : Nat
  completedAt : Option Nat
  taskId : Option String
  meta : BlockMeta
  isValid : Bool
  notes : Option String
deriving DecidableEq

/-- The `Subtask` entity (`src/models`). -/
structure Subtask where
  id : String
  title : String
  completed : Bool
deriving DecidableEq

/-- The `Task` entity (`src/models`). -/
structure Task where
  id : String
  title : String
  subtasks : List Subtask
  completed : Bool
  createdAt : Nat
  modifiedAt : Nat
  blocksSpent : Nat
  notes : Option String
deriving DecidableEq

/-- The `RightNowItem` entity (`src/models`). -/
structure RightNowItem where
  id : String
  text : String
  completed : Bool
deriving DecidableEq

/-- The `RightNowList` entity (`src/models`). -/
structure RightNowList where
  id : String
  blockId : Option String
  items : List RightNowItem
  createdAt : Nat
deriving DecidableEq

/-- The `Break` entity (`src/models`). -/
structure Break where
  id : String
  startedAt : Nat
  endedAt : Option Nat
  duration : Nat
  notes : Option String
deriving DecidableEq

/-- The replicated document (`ydoc`, yjsProvider.ts lines 5-12): blocks
and breaks are ordered sequences (`Y.Array`), the rest are id-keyed maps
(`Y.Map`), modelled as association lists. -/
structure Doc where
  blocks : List Block
  tasks : List (String × Task)
  rightNowLists : List (String × RightNowList)
  breaks : List Break
  taskNotes : List (String × String)
deriving DecidableEq

/-- The type of `Partial<Block>` as passed to `updateBlock`: a field set to `some v`
is present in the update object, `none` is absent. -/
structure BlockUpdate where
  id : Option String := none
  date : Option String := none
  startedAt : Option Nat := none
  completedAt : Option Nat := none
  taskId : Option String := none
  meta : Option BlockMeta := none
  isValid : Option Bool := none
  notes : Option String := none
deriving DecidableEq

/-- The object spread `{ ...block, ...updates }` (line 42): present
update fields override the block's fields. -/
def Block.applySpread (b : Block) (u : BlockUpdate) : Block :=
  { id := u.id.getD b.id
    date := u.date.getD b.date
    startedAt := u.startedAt.getD b.startedAt
    completedAt := match u.completedAt with | some v => some v | none => b.completedAt
    taskId := match u.taskId with | some v => some v | none => b.taskId
    meta := u.meta.getD b.meta
    isValid := u.isValid.getD b.isValid
    notes := match u.notes with | some v => some v | none => b.notes }

/-- The type of `Partial<Break>` as passed to `updateBreak`. -/
structure BreakUpdate where
  id : Option String := none
  startedAt : Option Nat := none
  endedAt : Option Nat := none
  duration : Option Nat := none
  notes : Option String := none
deriving DecidableEq

/-- The object spread `{ ...breakItem, ...updates }` (line 116). -/
def Break.applySpread (k : Break) (u : BreakUpdate) : Break :=
  { id := u.id.getD k.id
    startedAt := u.startedAt.getD k.startedAt
    endedAt := match u.endedAt with | some v => some v | none => k.endedAt
    duration := u.duration.getD k.duration
    notes := match u.notes with | some v => some v | none => k.notes }

/-- A primitive `Y.Array` operation, as issued inside `ydoc.transact`. -/
inductive ArrOp (α : Type) where
  | del (index len : Nat)
  | ins (index : Nat) (items : List α)
deriving DecidableEq

/-- Semantics of a primitive sequence operation. -/
def applyArrOp (l : List α) : ArrOp α → List α
  | .del i n => l.take i ++ l.drop (i + n)
  | .ins i xs => l.take i ++ xs ++ l.drop i

/-- The transaction body of `updateBlock` (lines 38-48) as the list of
primitive operations it issues: nothing when `findIndex` returns `-1`,
otherwise `delete(index, 1)` followed by `insert(index, [updated])`. -/
def updateBlockOps (id : String) (u : BlockUpdate) (blocks : List Block) :
    List (ArrOp Block) :=
  match blocks.findIdx? (fun b => b.id == id) with
  | none => []
  | some i =>
    match blocks[i]? with
    | some b => [.del i 1, .ins i [b.applySpread u]]
    | none => []

/-- Function `updateBlock` (lines 38-48): apply the transaction to the document. -/
def updateBlock (id : String) (u : BlockUpdate) (d : Doc) : Doc :=
  { d with blocks := (updateBlockOps id u d.blocks).foldl applyArrOp d.blocks }

/-- The transaction body of `updateBreak` (lines 112-122). -/
def updateBreakOps (id : String) (u : BreakUpdate) (breaks : List Break) :
    List (ArrOp Break) :=
  match breaks.findIdx? (fun k => k.id == id) with
  | none => []
  | some i =>
    match breaks[i]? with
    | some k => [.del i 1, .ins i [k.applySpread u]]
    | none => []

/-- Function `updateBreak` (lines 112-122). -/
def updateBreak (id : String) (u : BreakUpdate) (d : Doc) : Doc :=
  { d with breaks := (updateBreakOps id u d.breaks).foldl applyArrOp d.breaks }

/-- Function `completeBlock` (useBlocks.ts, lines 56-64): update the block with
`completedAt = Date.now()` and a meta object spreading the block's
current meta with the `celebrated` flag.  When the id is not found, the
source spreads `undefined` and casts (`as BlockMeta`); the all-false meta
stands in for that unreachable object. -/
def completeBlock (id : String) (celebrated : Bool) (now : Nat) (d : Doc) : Doc :=
  let metaBase :=
    match d.blocks.find? (fun b => b.id == id) with
    | some b => b.meta
    | none => ⟨false, false, false, false, false⟩
  updateBlock id
    { completedAt := some now, meta := some { metaBase with celebrated := celebrated } } d

end YjsProvider

namespace SubeteTasks

/-- The `SubeteTask` record (useSubeteTasks, lines 18-25).  `value` and `time` are
JSON numbers, modelled as rationals. -/
structure SubeteTask where
  id : String
  content : String
  status : String
  value : ℚ
  time : ℚ
  tags : Option (List String)
deriving DecidableEq

/-- The `SyncStatus` type (line 28). -/
inductive SyncStatus where
  | synced
  | syncing
  | offline
  | error
deriving DecidableEq

/-- Constant `MAX_RETRIES` of the importer (line 34). -/
def IMPORT_MAX_RETRIES : Nat := 3

/-- Substring test, the embedding of JavaScript
`String.prototype.includes`: `sub` occurs in `s` iff splitting on it
yields more than one piece. -/
def containsSub (s sub : String) : Bool :=
  decide ((s.splitOn sub).length > 1)

/-- The retryable-error test of `readSharedTasks` (lines 107-111):
lock/busy patterns in the lowercased message. -/
def isRetryableMsg (m : String) : Bool :=
  let l := m.toLower
  containsSub l "lock" || containsSub l "busy" || containsSub l "ebusy" ||
    containsSub l "eagain"

/-- What one read attempt of the shared tasks file produced: the file may
be missing (the `exists` check, line 89), the read+parse+shape-check may
succeed with a task array, or some step may throw with a message — a
`readTextFile` error, a `JSON.parse` error, or the thrown
`Invalid tasks format: expected array` (line 99). -/
inductive AttemptRes where
  | fileMissing
  | tasksArr (ts : List SubeteTask)
  | errMsg (m : String)
deriving DecidableEq

/-- The attempt loop of `readSharedTasks` (lines 81-128), consuming one
`AttemptRes` per iteration.  A missing file returns `([], false)` at once
(line 91) — note `fromCache` is `false` and in fact no path of the source
ever returns `fromCache = true`.  A retryable error below the last
attempt sleeps and retries; any other error breaks out and is thrown. -/
def readSharedTasksGo (retries : Nat) :
    Nat → Option String → List AttemptRes → Except String (List SubeteTask × Bool)
  | _, lastErr, [] => .error (lastErr.getD "Failed to read shared tasks")
  | attempt, lastErr, o :: rest =>
    if attempt < retries then
      match o with
      | .fileMissing => .ok ([], false)
      | .tasksArr ts => .ok (ts, false)
      | .errMsg m =>
        if isRetryableMsg m && decide (attempt < retries - 1) then
          readSharedTasksGo retries (attempt + 1) (some m) rest
        else .error m
    else .error (lastErr.getD "Failed to read shared tasks")

/-- Function `readSharedTasks` with the default retry budget (line 81). -/
def readSharedTasks (attempts : List AttemptRes) :
    Except String (List SubeteTask × Bool) :=
  readSharedTasksGo IMPORT_MAX_RETRIES 0 none attempts

/-- The state of the `useSubeteTasks` hook visible across polls: the
React states `tasks`, `error`, `syncStatus`, `loading` and the refs
(lines 135-143), plus the localStorage cache written by
`saveCachedTasks`. -/
structure ImporterState where
  tasks : List SubeteTask
  error : Option String
  syncStatus : SyncStatus
  loading : Bool
  previousTaskCount : Option Nat
  hasInitialLoad : Bool
  lastError : Option String
  consecutiveErrors : Nat
  cache : List SubeteTask
deriving DecidableEq

/-- One `refresh` poll (lines 145-214), with `attempts` the outcomes of
the underlying read attempts.  On success the in-memory list is replaced
by what was read, the status becomes `offline` when the result came from
cache and `synced` otherwise, and a nonempty fresh result is cached.  On
error the status becomes `error`, the consecutive-error counter grows,
and the toast classification (lines 195-207) may downgrade the status to
`offline` for a missing-file message; the task list is never cleared on
error. -/
def refresh (s : ImporterState) (attempts : List AttemptRes) : ImporterState :=
  match readSharedTasks attempts with
  | .ok (sharedTasks, fromCache) =>
    { s with
      tasks := sharedTasks
      error := none
      syncStatus := if fromCache then .offline else .synced
      consecutiveErrors := 0
      cache :=
        if !fromCache && decide (sharedTasks.length > 0) then sharedTasks else s.cache
      lastError := none
      previousTaskCount := some sharedTasks.length
      hasInitialLoad := true
      loading := false }
  | .error m =>
    let consec := s.consecutiveErrors + 1
    let base :=
      { s with
        error := some m
        syncStatus := SyncStatus.error
        consecutiveErrors := consec
        loading := false }
    let shouldShowToast :=
      s.hasInitialLoad && !(s.lastError == some m) && decide (consec ≤ 3)
    if shouldShowToast then
      if containsSub m "locked" || containsSub m "EBUSY" || containsSub m "busy" then
        { base with lastError := some m }
      else if containsSub m "ENOENT" || containsSub m "not found" then
        { base with syncStatus := .offline, lastError := some m }
      else
        { base with lastError := some m }
    else base

/-- The priority key of a task as computed inside the sort comparator
(lines 249-250): `value / time` for positive time, `Infinity` (`⊤`) for
zero time and positive value, `0` otherwise. -/
def priorityOf (t : SubeteTask) : WithTop ℚ :=
  if t.time > 0 then ((t.value / t.time : ℚ) : WithTop ℚ)
  else if t.value > 0 then ⊤
  else ((0 : ℚ) : WithTop ℚ)

/-- Function `sortTasksByPriority` (lines 247-253): sort a copy of the list so
that `a` precedes `b` when the comparator `ratioB - ratioA` is
nonpositive, i.e. by descending priority key.  Two `Infinity` keys make
the comparator `NaN`, which the engine treats as a tie; the merge sort
keeps ties stable, matching that. -/
def sortTasksByPriority (tasks : List SubeteTask) : List SubeteTask :=
  tasks.mergeSort (fun a b => decide (priorityOf b ≤ priorityOf a))

end SubeteTasks




namespace CompletionSync

/-- Helper: staging against an empty file stages every queued item. -/
theorem stageNew_nil (queue : List QueuedCompletion) :
    stageNew queue [] = queue.map QueuedCompletion.toCompletion := by
  simp [stageNew, existingKeys]

/-- Helper: a failing run writes nothing to the file. -/
theorem processQueueRun_fail_written (s : RelayState) (file : FileRead) :
    (processQueueRun s file false).written = none := by
  unfold processQueueRun
  split
  · rfl
  · simp only [Bool.false_eq_true, if_false]
    split
    · rfl
    · split <;> rfl

/-- Helper: a failing run either empties the queue or moves to the
incremented filtered queue with a retry scheduled from its minimum
retry count. -/
theorem processQueueRun_fail_state (s : RelayState) (file : FileRead) :
    (processQueueRun s file false).state.pendingQueue = [] ∨
    (processQueueRun s file false).state =
      { pendingQueue :=
          (s.pendingQueue.filter (fun q => decide (q.retryCount < MAX_RETRIES))).map
            (fun q => { q with retryCount := q.retryCount + 1 })
        retryTimer :=
          some (minRetryCount
            ((s.pendingQueue.filter (fun q => decide (q.retryCount < MAX_RETRIES))).map
              (fun q => { q with retryCount := q.retryCount + 1 }))) } := by
  unfold processQueueRun
  split
  · next h => left; simpa [List.isEmpty_iff] using h
  · simp only [Bool.false_eq_true, if_false]
    split
    · left; rfl
    · split
      · left; rfl
      · right; rfl

/-- Helper: one failing run on a single-item queue below the ceiling. -/
theorem runFailStep_single (q : QueuedCompletion) (t : Option Nat)
    (h : q.retryCount < 5) :
    runFailStep ⟨[q], t⟩ =
      ⟨[{ q with retryCount := q.retryCount + 1 }], some (q.retryCount + 1)⟩ := by
  simp [runFailStep, processQueueRun, stageNew, existingKeys, readExistingCompletions,
    minRetryCount, MAX_RETRIES, h]

/-- Helper: `k ≤ 5` failing runs take a fresh single-item queue to retry
count `k`. -/
theorem runFailStep_iterate (q : QueuedCompletion) (t : Option Nat)
    (h : q.retryCount = 0) :
    ∀ k, k ≤ 5 → (runFailStep)^[k] ⟨[q], t⟩ =
      ⟨[{ q with retryCount := k }], if k = 0 then t else some k⟩ := by
  intro k
  induction k with
  | zero =>
    intro _
    cases q
    simp_all [Function.iterate_zero_apply]
  | succ n ih =>
    intro hk
    rw [Function.iterate_succ_apply', ih (by omega), runFailStep_single _ _ (by simpa using by omega)]
    simp

end CompletionSync

namespace CompletionSync

/-- C1: two `recordCompletion` calls with the identical `(taskId,
completedAt)` pair queue two items with the same dedup key; a single
processing run stages both of them, because the staged batch is only
deduplicated against the keys already in the file, not within itself.
Evaluated at the failing input: with an empty (missing) file and a
successful write, the written file holds two entries with that dedup
key, not one. -/
theorem relay_same_run_duplicate :
    (processQueueRun
        ⟨[⟨"42", "2024-01-01T00:00:00.000Z", 25, none, 0, 0⟩,
          ⟨"42", "2024-01-01T00:00:00.000Z", 25, none, 0, 1⟩], none⟩
        .missing true).written =
      some [⟨"42", "2024-01-01T00:00:00.000Z", 25, none⟩,
            ⟨"42", "2024-01-01T00:00:00.000Z", 25, none⟩] ∧
    countKey [⟨"42", "2024-01-01T00:00:00.000Z", 25, none⟩,
              ⟨"42", "2024-01-01T00:00:00.000Z", 25, none⟩]
        (dedupKey "42" "2024-01-01T00:00:00.000Z") = 2 := by
  decide

/-- C2 counterexample: an item queued with `retryCount = 0` survives 5
consecutive failing processing runs — it is still in the pending queue,
now at `retryCount = 5`, so the claim that 5 failing attempts drop it is
false on the code. -/
theorem relay_five_failures_keep_item :
    ((runFailStep)^[5]
        ⟨[⟨"42", "2024-01-01T00:00:00.000Z", 25, none, 0, 0⟩], none⟩).pendingQueue =
      [⟨"42", "2024-01-01T00:00:00.000Z", 25, none, 5, 0⟩] := by
  decide

/-- C2 (amended): on each failing run items with `retryCount < 5` are
kept with the count incremented, so a fresh item is still pending after
5 failing runs (at `retryCount = k` after `k ≤ 5` of them) and is dropped
on the 6th failing run; failing runs never write to the file. -/
theorem relay_drop_on_sixth_failure (q : QueuedCompletion) (t : Option Nat)
    (h : q.retryCount = 0) :
    (∀ k, k ≤ 5 → ((runFailStep)^[k] ⟨[q], t⟩).pendingQueue =
        [{ q with retryCount := k }]) ∧
    ((runFailStep)^[6] ⟨[q], t⟩).pendingQueue = [] ∧
    (∀ s file, (processQueueRun s file false).written = none) := by
  refine ⟨fun k hk => by rw [runFailStep_iterate q t h k hk], ?_,
    fun s file => processQueueRun_fail_written s file⟩
  rw [show (6 : Nat) = 5 + 1 from rfl, Function.iterate_succ_apply',
    runFailStep_iterate q t h 5 (by omega)]
  simp [runFailStep, processQueueRun, stageNew, existingKeys, readExistingCompletions,
    MAX_RETRIES]

/-- Witness for C2 (amended) at a concrete fresh item. -/
theorem relay_drop_on_sixth_failure_witness :
    (⟨"42", "2024-01-01T00:00:00.000Z", 25, none, 0, 0⟩ :
        QueuedCompletion).retryCount = 0 ∧
    ((runFailStep)^[6]
        ⟨[⟨"42", "2024-01-01T00:00:00.000Z", 25, none, 0, 0⟩], none⟩).pendingQueue = [] :=
  ⟨rfl,
    (relay_drop_on_sixth_failure ⟨"42", "2024-01-01T00:00:00.000Z", 25, none, 0, 0⟩
      none rfl).2.1⟩

/-- C6 counterexample: a failing run whose surviving items all have
`retryCount = 5` schedules the retry from `n = 5`, and there the actual
delay `min(1000 * 2 ^ 5, 30000) + jitter * 1000` is not in the claimed
interval `[1000 * 2 ^ 5, 1000 * 2 ^ 5 + 1000]`, and (for jitter `1/2`)
exceeds the claimed 30000 ms cap. -/
theorem relay_backoff_cap_counterexample :
    (processQueueRun ⟨[⟨"t", "c", 25, none, 4, 0⟩], some 0⟩
        .missing false).state.retryTimer = some 5 ∧
    getRetryDelay 5 (1 / 2) = 30500 ∧
    ¬ (BASE_RETRY_DELAY_MS * 2 ^ 5 ≤ getRetryDelay 5 (1 / 2)) ∧
    ¬ (getRetryDelay 5 (1 / 2) ≤ MAX_RETRY_DELAY_MS) := by
  refine ⟨by decide, ?_, ?_, ?_⟩ <;>
    norm_num [getRetryDelay, BASE_RETRY_DELAY_MS, MAX_RETRY_DELAY_MS]

/-- C6 (amended): a failing run that leaves a non-empty pending queue
schedules exactly one retry — replacing whatever timer was pending — from
`n`, the minimum `retryCount` among the remaining items, and for every
jitter in `[0, 1)` the scheduled delay lies in
`[min(base * 2 ^ n, 30000), min(base * 2 ^ n, 30000) + 1000)`: the
30000 ms cap is applied to the exponential part before the jitter is
added. -/
theorem relay_backoff_delay (s : RelayState) (file : FileRead)
    (h : (processQueueRun s file false).state.pendingQueue ≠ []) :
    ∃ n, (processQueueRun s file false).state.retryTimer = some n ∧
      n = minRetryCount (processQueueRun s file false).state.pendingQueue ∧
      ∀ jitter : ℚ, 0 ≤ jitter → jitter < 1 →
        min (BASE_RETRY_DELAY_MS * 2 ^ n) MAX_RETRY_DELAY_MS ≤ getRetryDelay n jitter ∧
        getRetryDelay n jitter <
          min (BASE_RETRY_DELAY_MS * 2 ^ n) MAX_RETRY_DELAY_MS + 1000 := by
  rcases processQueueRun_fail_state s file with hcase | hcase
  · exact absurd hcase h
  · refine ⟨minRetryCount (processQueueRun s file false).state.pendingQueue,
      by rw [hcase], rfl, fun jitter h0 h1 => ?_⟩
    unfold getRetryDelay
    constructor
    · nlinarith
    · nlinarith

/-- Witness for C6 (amended) at a concrete failing run. -/
theorem relay_backoff_delay_witness :
    (processQueueRun ⟨[⟨"42", "T1", 25, none, 0, 0⟩], none⟩
        .missing false).state.pendingQueue ≠ [] ∧
    ∃ n, (processQueueRun ⟨[⟨"42", "T1", 25, none, 0, 0⟩], none⟩
        .missing false).state.retryTimer = some n ∧
      n = minRetryCount (processQueueRun ⟨[⟨"42", "T1", 25, none, 0, 0⟩], none⟩
        .missing false).state.pendingQueue ∧
      ∀ jitter : ℚ, 0 ≤ jitter → jitter < 1 →
        min (BASE_RETRY_DELAY_MS * 2 ^ n) MAX_RETRY_DELAY_MS ≤ getRetryDelay n jitter ∧
        getRetryDelay n jitter <
          min (BASE_RETRY_DELAY_MS * 2 ^ n) MAX_RETRY_DELAY_MS + 1000 :=
  ⟨by decide, relay_backoff_delay ⟨[⟨"42", "T1", 25, none, 0, 0⟩], none⟩ .missing (by decide)⟩

/-- C10: whenever the completions file cannot be read or its parsed
content is not an array, `readExistingCompletions` returns the empty
list, and a subsequent successful run therefore writes only the staged
queue items — whatever was in the unreadable or non-array file is not
preserved. -/
theorem readExisting_fallback_replaces (file : FileRead)
    (h : file = .readFailure ∨ file = .parseFailure ∨ file = .parsedNonArray) :
    readExistingCompletions file = [] ∧
    ∀ s : RelayState, s.pendingQueue ≠ [] →
      (processQueueRun s file true).written =
        some (s.pendingQueue.map QueuedCompletion.toCompletion) := by
  have hread : readExistingCompletions file = [] := by
    rcases h with h | h | h <;> subst h <;> rfl
  refine ⟨hread, fun s hs => ?_⟩
  unfold processQueueRun
  rw [hread]
  simp [stageNew_nil, List.isEmpty_iff, hs]

/-- Witness for C10 at a concrete unreadable file and one-item queue. -/
theorem readExisting_fallback_replaces_witness :
    ((FileRead.readFailure = FileRead.readFailure ∨
        FileRead.readFailure = FileRead.parseFailure ∨
        FileRead.readFailure = FileRead.parsedNonArray) ∧
      ([⟨"42", "T1", 25, none, 0, 0⟩] : List QueuedCompletion) ≠ []) ∧
    (processQueueRun ⟨[⟨"42", "T1", 25, none, 0, 0⟩], none⟩ .readFailure true).written =
      some [⟨"42", "T1", 25, none⟩] :=
  ⟨⟨Or.inl rfl, by decide⟩,
    (readExisting_fallback_replaces FileRead.readFailure (Or.inl rfl)).2
      ⟨[⟨"42", "T1", 25, none, 0, 0⟩], none⟩ (by decide)⟩

end CompletionSync

namespace FirebaseSync

/-- C4 counterexample: after a successful setup (state `synced`,
listeners attached), a failed push and a snapshot error both set the
state to `offline`, not `error` as claimed. -/
theorem fb_failure_not_error_counterexample :
    (fbStep "client-1" ⟨.synced, true, true, 0, 0⟩ (.localMutation false)).syncState =
      .offline ∧
    ¬ ((fbStep "client-1" ⟨.synced, true, true, 0, 0⟩
        (.localMutation false)).syncState = .error) ∧
    (fbStep "client-1" ⟨.synced, true, true, 0, 0⟩ .snapshotError).syncState = .offline ∧
    ¬ ((fbStep "client-1" ⟨.synced, true, true, 0, 0⟩ .snapshotError).syncState =
        .error) := by
  decide

/-- C4 (amended): a failed push of a local delta and a snapshot-listener
error both transition the sync state to `offline` (not `error`), the
snapshot subscription and the push listener remain attached, and the next
local delta is pushed normally (a failed push followed by a successful
one issues both pushes and ends `synced`). -/
theorem fb_failure_offline_still_attached (cid : String) (s : FbState) :
    ((fbStep cid s (.localMutation false)).syncState = .offline ∧
      (fbStep cid s (.localMutation false)).subAttached = s.subAttached ∧
      (fbStep cid s (.localMutation false)).pushAttached = s.pushAttached) ∧
    ((fbStep cid s .snapshotError).syncState = .offline ∧
      (fbStep cid s .snapshotError).subAttached = s.subAttached ∧
      (fbStep cid s .snapshotError).pushAttached = s.pushAttached) ∧
    (fbStep cid (fbStep cid s (.localMutation false)) (.localMutation true)).pushCount =
      s.pushCount + 2 ∧
    (fbStep cid (fbStep cid s (.localMutation false)) (.localMutation true)).syncState =
      .synced := by
  simp [fbStep, handlePush, handleSnapshotError]

/-- C5: echo suppression.  A snapshot whose record's `origin` equals this
replica's client id is not applied; an update arriving at the push
listener with the remote tag `'firebase'` is never pushed; hence one
local mutation followed by the remote record echoing it back gives
exactly one outbound push; and in general a snapshot is applied only
when its `origin` differs from the client id. -/
theorem fb_echo_suppression (cid u : String) (d : RemoteRecord) (s : FbState)
    (hecho : d.origin = cid) :
    (handleSnapshot cid (some d) s).2 = false ∧
    (∀ ok (s2 : FbState), handlePush (some "firebase") ok s2 = s2) ∧
    (fbRun cid s [.localMutation true, .remoteSnapshot (some ⟨some u, cid⟩)]).pushCount =
      s.pushCount + 1 ∧
    (∀ rec, (handleSnapshot cid rec s).2 = true →
      ∃ d2, rec = some d2 ∧ d2.origin ≠ cid) := by
  refine ⟨by simp [handleSnapshot, hecho], by simp [handlePush],
    by simp [fbRun, fbStep, handlePush, handleSnapshot], fun rec happ => ?_⟩
  match rec with
  | none => simp [handleSnapshot] at happ
  | some d2 =>
    refine ⟨d2, rfl, fun hor => ?_⟩
    simp [handleSnapshot, hor] at happ

/-- Witness for C5 at a concrete client id, record, and state. -/
theorem fb_echo_suppression_witness :
    (RemoteRecord.origin ⟨some "u", "client-a"⟩ = "client-a") ∧
    ((handleSnapshot "client-a" (some ⟨some "u", "client-a"⟩)
        ⟨.synced, true, true, 0, 0⟩).2 = false ∧
      (∀ ok (s2 : FbState), handlePush (some "firebase") ok s2 = s2) ∧
      (fbRun "client-a" ⟨.synced, true, true, 0, 0⟩
          [.localMutation true, .remoteSnapshot (some ⟨some "u", "client-a"⟩)]).pushCount =
        (FbState.pushCount ⟨.synced, true, true, 0, 0⟩) + 1 ∧
      (∀ rec, (handleSnapshot "client-a" rec ⟨.synced, true, true, 0, 0⟩).2 = true →
        ∃ d2, rec = some d2 ∧ d2.origin ≠ "client-a")) :=
  ⟨rfl, fb_echo_suppression "client-a" "u" ⟨some "u", "client-a"⟩
    ⟨.synced, true, true, 0, 0⟩ rfl⟩

end FirebaseSync

namespace YjsProvider

/-- Helper: deleting one element at `i` and reinserting one at `i` is an
in-place replacement of the element at `i`. -/
theorem applyArrOp_del_ins {α : Type} (l : List α) (i : Nat) (x : α)
    (hi : i < l.length) :
    applyArrOp (applyArrOp l (.del i 1)) (.ins i [x]) = l.set i x := by
  have hlen : (l.take i).length = i := by
    rw [List.length_take]
    omega
  simp only [applyArrOp]
  rw [List.take_left' hlen, List.drop_left' hlen,
    List.set_eq_take_append_cons_drop, if_pos hi]
  simp

/-- Helper: when `findIndex` locates the block, `updateBlock` replaces
exactly that position with the spread of the found block. -/
theorem updateBlock_found (d : Doc) (id : String) (u : BlockUpdate) (i : Nat)
    (b : Block) (hfind : d.blocks.findIdx? (fun x => x.id == id) = some i)
    (hb : d.blocks[i]? = some b) :
    updateBlock id u d = { d with blocks := d.blocks.set i (b.applySpread u) } := by
  have hi : i < d.blocks.length :=
    (List.findIdx?_eq_some_iff_findIdx_eq.mp hfind).1
  have hops : updateBlockOps id u d.blocks = [.del i 1, .ins i [b.applySpread u]] := by
    simp only [updateBlockOps, hfind, hb]
  unfold updateBlock
  rw [hops]
  simp only [List.foldl]
  rw [applyArrOp_del_ins _ _ _ hi]

/-- Helper: the same for `updateBreak`. -/
theorem updateBreak_found (d : Doc) (id : String) (u : BreakUpdate) (i : Nat)
    (k : Break) (hfind : d.breaks.findIdx? (fun x => x.id == id) = some i)
    (hk : d.breaks[i]? = some k) :
    updateBreak id u d = { d with breaks := d.breaks.set i (k.applySpread u) } := by
  have hi : i < d.breaks.length :=
    (List.findIdx?_eq_some_iff_findIdx_eq.mp hfind).1
  have kops : updateBreakOps id u d.breaks = [.del i 1, .ins i [k.applySpread u]] := by
    simp only [updateBreakOps, hfind, hk]
  unfold updateBreak
  rw [kops]
  simp only [List.foldl]
  rw [applyArrOp_del_ins _ _ _ hi]

/-- C7: completing a block present in the document sets its
`completedAt` to the completion time while leaving its `isValid` and
`taskId` unchanged, modifies no other block in the sequence, and leaves
the tasks map — hence the referenced task's `blocksSpent` — and every
other collection untouched. -/
theorem completeBlock_frame (d : Doc) (id : String) (cel : Bool) (now : Nat)
    (i : Nat) (b : Block)
    (hfind : d.blocks.findIdx? (fun x => x.id == id) = some i)
    (hb : d.blocks[i]? = some b) :
    ∃ b2, (completeBlock id cel now d).blocks[i]? = some b2 ∧
      b2.completedAt = some now ∧
      b2.isValid = b.isValid ∧
      b2.taskId = b.taskId ∧
      (completeBlock id cel now d).blocks.length = d.blocks.length ∧
      (∀ j, j ≠ i → (completeBlock id cel now d).blocks[j]? = d.blocks[j]?) ∧
      (completeBlock id cel now d).tasks = d.tasks ∧
      (completeBlock id cel now d).rightNowLists = d.rightNowLists ∧
      (completeBlock id cel now d).breaks = d.breaks ∧
      (completeBlock id cel now d).taskNotes = d.taskNotes := by
  have hi : i < d.blocks.length :=
    (List.findIdx?_eq_some_iff_findIdx_eq.mp hfind).1
  unfold completeBlock
  rw [updateBlock_found d id _ i b hfind hb]
  refine ⟨b.applySpread
    { completedAt := some now
      meta := some { (match d.blocks.find? (fun x => x.id == id) with
          | some b => b.meta
          | none => ⟨false, false, false, false, false⟩) with celebrated := cel } },
    ?_, by simp [Block.applySpread], by simp [Block.applySpread],
    by simp [Block.applySpread], by simp, fun j hj => ?_, rfl, rfl, rfl, rfl⟩
  · exact List.getElem?_set_self hi
  · exact List.getElem?_set_ne (fun h => hj h.symm)

/-- C9: updating a block or a break by an id not present in the
respective sequence is a no-op: no delete/insert transaction is issued
and the document, every collection included, is unchanged. -/
theorem update_missing_id_noop (d : Doc) (id : String) (u : BlockUpdate)
    (v : BreakUpdate) (hb : ∀ b ∈ d.blocks, b.id ≠ id)
    (hk : ∀ k ∈ d.breaks, k.id ≠ id) :
    updateBlockOps id u d.blocks = [] ∧ updateBlock id u d = d ∧
    updateBreakOps id v d.breaks = [] ∧ updateBreak id v d = d := by
  have hfb : d.blocks.findIdx? (fun x => x.id == id) = none :=
    List.findIdx?_eq_none_iff.mpr fun x hx => by
      simpa using hb x hx
  have hfk : d.breaks.findIdx? (fun x => x.id == id) = none :=
    List.findIdx?_eq_none_iff.mpr fun x hx => by
      simpa using hk x hx
  have hops : updateBlockOps id u d.blocks = [] := by
    unfold updateBlockOps
    rw [hfb]
  have kops : updateBreakOps id v d.breaks = [] := by
    unfold updateBreakOps
    rw [hfk]
  refine ⟨hops, ?_, kops, ?_⟩
  · unfold updateBlock
    rw [hops]
    rfl
  · unfold updateBreak
    rw [kops]
    rfl

end YjsProvider

namespace YjsProvider

/-- Witness for C7: the spec scenario — a task "Write report", a block
referencing it with all five meta flags true, completed at time 500. -/
theorem completeBlock_frame_witness :
    ((⟨[⟨"b1", "2024-01-01", 100, none, some "t1", ⟨true, true, true, true, true⟩,
          true, none⟩],
        [("t1", ⟨"t1", "Write report", [], false, 0, 0, 0, none⟩)], [], [], []⟩ :
          Doc).blocks.findIdx? (fun x => x.id == "b1") = some 0 ∧
      (⟨[⟨"b1", "2024-01-01", 100, none, some "t1", ⟨true, true, true, true, true⟩,
          true, none⟩],
        [("t1", ⟨"t1", "Write report", [], false, 0, 0, 0, none⟩)], [], [], []⟩ :
          Doc).blocks[0]? =
        some ⟨"b1", "2024-01-01", 100, none, some "t1", ⟨true, true, true, true, true⟩,
          true, none⟩) ∧
    ∃ b2, (completeBlock "b1" true 500
        ⟨[⟨"b1", "2024-01-01", 100, none, some "t1", ⟨true, true, true, true, true⟩,
            true, none⟩],
          [("t1", ⟨"t1", "Write report", [], false, 0, 0, 0, none⟩)], [], [],
          []⟩).blocks[0]? = some b2 ∧
      b2.completedAt = some 500 ∧
      b2.isValid = Block.isValid ⟨"b1", "2024-01-01", 100, none, some "t1",
        ⟨true, true, true, true, true⟩, true, none⟩ ∧
      b2.taskId = Block.taskId ⟨"b1", "2024-01-01", 100, none, some "t1",
        ⟨true, true, true, true, true⟩, true, none⟩ ∧
      (completeBlock "b1" true 500
          ⟨[⟨"b1", "2024-01-01", 100, none, some "t1", ⟨true, true, true, true, true⟩,
              true, none⟩],
            [("t1", ⟨"t1", "Write report", [], false, 0, 0, 0, none⟩)], [], [],
            []⟩).blocks.length =
        (⟨[⟨"b1", "2024-01-01", 100, none, some "t1", ⟨true, true, true, true, true⟩,
            true, none⟩],
          [("t1", ⟨"t1", "Write report", [], false, 0, 0, 0, none⟩)], [], [], []⟩ :
            Doc).blocks.length ∧
      (∀ j, j ≠ 0 → (completeBlock "b1" true 500
          ⟨[⟨"b1", "2024-01-01", 100, none, some "t1", ⟨true, true, true, true, true⟩,
              true, none⟩],
            [("t1", ⟨"t1", "Write report", [], false, 0, 0, 0, none⟩)], [], [],
            []⟩).blocks[j]? =
        (⟨[⟨"b1", "2024-01-01", 100, none, some "t1", ⟨true, true, true, true, true⟩,
            true, none⟩],
          [("t1", ⟨"t1", "Write report", [], false, 0, 0, 0, none⟩)], [], [], []⟩ :
            Doc).blocks[j]?) ∧
      (completeBlock "b1" true 500
          ⟨[⟨"b1", "2024-01-01", 100, none, some "t1", ⟨true, true, true, true, true⟩,
              true, none⟩],
            [("t1", ⟨"t1", "Write report", [], false, 0, 0, 0, none⟩)], [], [],
            []⟩).tasks =
        [("t1", ⟨"t1", "Write report", [], false, 0, 0, 0, none⟩)] ∧
      (completeBlock "b1" true 500
          ⟨[⟨"b1", "2024-01-01", 100, none, some "t1", ⟨true, true, true, true, true⟩,
              true, none⟩],
            [("t1", ⟨"t1", "Write report", [], false, 0, 0, 0, none⟩)], [], [],
            []⟩).rightNowLists = [] ∧
      (completeBlock "b1" true 500
          ⟨[⟨"b1", "2024-01-01", 100, none, some "t1", ⟨true, true, true, true, true⟩,
              true, none⟩],
            [("t1", ⟨"t1", "Write report", [], false, 0, 0, 0, none⟩)], [], [],
            []⟩).breaks = [] ∧
      (completeBlock "b1" true 500
          ⟨[⟨"b1", "2024-01-01", 100, none, some "t1", ⟨true, true, true, true, true⟩,
              true, none⟩],
            [("t1", ⟨"t1", "Write report", [], false, 0, 0, 0, none⟩)], [], [],
            []⟩).taskNotes = [] :=
  ⟨⟨rfl, rfl⟩,
    completeBlock_frame
      ⟨[⟨"b1", "2024-01-01", 100, none, some "t1", ⟨true, true, true, true, true⟩,
          true, none⟩],
        [("t1", ⟨"t1", "Write report", [], false, 0, 0, 0, none⟩)], [], [], []⟩
      "b1" true 500 0
      ⟨"b1", "2024-01-01", 100, none, some "t1", ⟨true, true, true, true, true⟩,
        true, none⟩ rfl rfl⟩

/-- Witness for C9: an id matching no block and no break. -/
theorem update_missing_id_noop_witness :
    ((∀ b ∈ (⟨[⟨"b1", "2024-01-01", 100, none, none, ⟨false, false, false, false, false⟩,
          true, none⟩], [], [], [⟨"k1", 7, none, 5, none⟩], []⟩ : Doc).blocks,
        b.id ≠ "zzz") ∧
      (∀ k ∈ (⟨[⟨"b1", "2024-01-01", 100, none, none, ⟨false, false, false, false, false⟩,
          true, none⟩], [], [], [⟨"k1", 7, none, 5, none⟩], []⟩ : Doc).breaks,
        k.id ≠ "zzz")) ∧
    updateBlockOps "zzz" {}
        (⟨[⟨"b1", "2024-01-01", 100, none, none, ⟨false, false, false, false, false⟩,
          true, none⟩], [], [], [⟨"k1", 7, none, 5, none⟩], []⟩ : Doc).blocks = [] ∧
    updateBlock "zzz" {}
        ⟨[⟨"b1", "2024-01-01", 100, none, none, ⟨false, false, false, false, false⟩,
          true, none⟩], [], [], [⟨"k1", 7, none, 5, none⟩], []⟩ =
      ⟨[⟨"b1", "2024-01-01", 100, none, none, ⟨false, false, false, false, false⟩,
          true, none⟩], [], [], [⟨"k1", 7, none, 5, none⟩], []⟩ ∧
    updateBreakOps "zzz" {}
        (⟨[⟨"b1", "2024-01-01", 100, none, none, ⟨false, false, false, false, false⟩,
          true, none⟩], [], [], [⟨"k1", 7, none, 5, none⟩], []⟩ : Doc).breaks = [] ∧
    updateBreak "zzz" {}
        ⟨[⟨"b1", "2024-01-01", 100, none, none, ⟨false, false, false, false, false⟩,
          true, none⟩], [], [], [⟨"k1", 7, none, 5, none⟩], []⟩ =
      ⟨[⟨"b1", "2024-01-01", 100, none, none, ⟨false, false, false, false, false⟩,
          true, none⟩], [], [], [⟨"k1", 7, none, 5, none⟩], []⟩ :=
  ⟨⟨by decide, by decide⟩,
    update_missing_id_noop
      ⟨[⟨"b1", "2024-01-01", 100, none, none, ⟨false, false, false, false, false⟩,
          true, none⟩], [], [], [⟨"k1", 7, none, 5, none⟩], []⟩
      "zzz" {} {} (by decide) (by decide)⟩

end YjsProvider

namespace SubeteTasks

/-- C3 counterexample: a poll that finds the external tasks file missing
reports `synced`, not `offline`, and replaces the visible in-memory list
with the empty list instead of keeping the cached tasks.  Starting state:
one cached task visible after an earlier successful poll. -/
theorem importer_missing_file_counterexample :
    (refresh ⟨[⟨"s1", "existing", "today", 1, 1, none⟩], none, .offline, false,
        some 1, true, none, 0, [⟨"s1", "existing", "today", 1, 1, none⟩]⟩
      [.fileMissing]).syncStatus = .synced ∧
    ¬ ((refresh ⟨[⟨"s1", "existing", "today", 1, 1, none⟩], none, .offline, false,
        some 1, true, none, 0, [⟨"s1", "existing", "today", 1, 1, none⟩]⟩
      [.fileMissing]).syncStatus = .offline) ∧
    (refresh ⟨[⟨"s1", "existing", "today", 1, 1, none⟩], none, .offline, false,
        some 1, true, none, 0, [⟨"s1", "existing", "today", 1, 1, none⟩]⟩
      [.fileMissing]).tasks = [] ∧
    (refresh ⟨[⟨"s1", "existing", "today", 1, 1, none⟩], none, .offline, false,
        some 1, true, none, 0, [⟨"s1", "existing", "today", 1, 1, none⟩]⟩
      [.fileMissing]).tasks ≠ [⟨"s1", "existing", "today", 1, 1, none⟩] := by
  refine ⟨rfl, by decide, rfl, by decide⟩

/-- C3 (amended): a poll in which the external tasks file does not exist
returns the empty task list with `fromCache = false`, so the status
becomes `synced` — not `error`, but not `offline` either — the visible
in-memory list becomes empty, no error is recorded, and the persisted
cache is left untouched. -/
theorem importer_missing_file_synced (s : ImporterState) :
    (refresh s [.fileMissing]).syncStatus = .synced ∧
    (refresh s [.fileMissing]).syncStatus ≠ SyncStatus.error ∧
    (refresh s [.fileMissing]).tasks = [] ∧
    (refresh s [.fileMissing]).error = none ∧
    (refresh s [.fileMissing]).cache = s.cache := by
  exact ⟨rfl, fun hcon => SyncStatus.noConfusion hcon, rfl, rfl, rfl⟩

/-- Helper: the priority key of a task with nonnegative `value` and
`time` is nonnegative. -/
theorem priorityOf_nonneg (t : SubeteTask) (hv : 0 ≤ t.value) (ht : 0 ≤ t.time) :
    0 ≤ priorityOf t := by
  unfold priorityOf
  split
  · exact_mod_cast div_nonneg hv ht
  · split
    · exact le_top
    · exact le_refl _

/-- Helper: zero time and positive value give the maximal key. -/
theorem priorityOf_top (t : SubeteTask) (ht : t.time = 0) (hv : 0 < t.value) :
    priorityOf t = ⊤ := by
  unfold priorityOf
  rw [if_neg (by rw [ht]; exact lt_irrefl 0), if_pos hv]

/-- Helper: zero time and zero value give the key `0`. -/
theorem priorityOf_zero (t : SubeteTask) (ht : t.time = 0) (hv : t.value = 0) :
    priorityOf t = ((0 : ℚ) : WithTop ℚ) := by
  unfold priorityOf
  rw [if_neg (by rw [ht]; exact lt_irrefl 0), if_neg (by rw [hv]; exact lt_irrefl 0)]

/-- C8: on tasks with nonnegative `value` and `time`,
`sortTasksByPriority` returns a permutation of its input ordered by
descending value/time priority key; a zero-time positive-value task has
the maximal key (`Infinity`), so it is `≥` every task, and a zero-time
zero-value task has key `0`, minimal among the nonnegative keys. -/
theorem sortTasksByPriority_spec (l : List SubeteTask)
    (h : ∀ t ∈ l, 0 ≤ t.value ∧ 0 ≤ t.time) :
    (sortTasksByPriority l).Perm l ∧
    List.Pairwise (fun a b => priorityOf b ≤ priorityOf a) (sortTasksByPriority l) ∧
    (∀ t ∈ l, t.time = 0 → 0 < t.value → ∀ t2 ∈ l, priorityOf t2 ≤ priorityOf t) ∧
    (∀ t ∈ l, t.time = 0 → t.value = 0 → ∀ t2 ∈ l, priorityOf t ≤ priorityOf t2) := by
  refine ⟨List.mergeSort_perm l _, ?_, ?_, ?_⟩
  · have hs := @List.sorted_mergeSort SubeteTask
      (fun a b : SubeteTask => decide (priorityOf b ≤ priorityOf a))
      (fun a b c hab hbc => by
        simp only [decide_eq_true_eq] at hab hbc ⊢
        exact le_trans hbc hab)
      (fun a b => by
        simp only [Bool.or_eq_true, decide_eq_true_eq]
        exact le_total (priorityOf b) (priorityOf a))
      l
    exact hs.imp fun hab => by simpa using hab
  · intro t _ ht hv t2 _
    rw [priorityOf_top t ht hv]
    exact le_top
  · intro t _ ht hv t2 ht2
    rw [priorityOf_zero t ht hv]
    exact_mod_cast priorityOf_nonneg t2 (h t2 ht2).1 (h t2 ht2).2

/-- Witness for C8: three tasks — ratio 2, `Infinity` (zero time,
positive value), and `0` (zero time, zero value). -/
theorem sortTasksByPriority_spec_witness :
    (∀ t ∈ [(⟨"a", "a", "today", 2, 1, none⟩ : SubeteTask),
        ⟨"b", "b", "today", 1, 0, none⟩, ⟨"c", "c", "today", 0, 0, none⟩],
      0 ≤ t.value ∧ 0 ≤ t.time) ∧
    ((sortTasksByPriority [(⟨"a", "a", "today", 2, 1, none⟩ : SubeteTask),
        ⟨"b", "b", "today", 1, 0, none⟩, ⟨"c", "c", "today", 0, 0, none⟩]).Perm
      [(⟨"a", "a", "today", 2, 1, none⟩ : SubeteTask),
        ⟨"b", "b", "today", 1, 0, none⟩, ⟨"c", "c", "today", 0, 0, none⟩] ∧
    List.Pairwise (fun a b => priorityOf b ≤ priorityOf a)
      (sortTasksByPriority [(⟨"a", "a", "today", 2, 1, none⟩ : SubeteTask),
        ⟨"b", "b", "today", 1, 0, none⟩, ⟨"c", "c", "today", 0, 0, none⟩]) ∧
    (∀ t ∈ [(⟨"a", "a", "today", 2, 1, none⟩ : SubeteTask),
        ⟨"b", "b", "today", 1, 0, none⟩, ⟨"c", "c", "today", 0, 0, none⟩],
      t.time = 0 → 0 < t.value →
      ∀ t2 ∈ [(⟨"a", "a", "today", 2, 1, none⟩ : SubeteTask),
        ⟨"b", "b", "today", 1, 0, none⟩, ⟨"c", "c", "today", 0, 0, none⟩],
        priorityOf t2 ≤ priorityOf t) ∧
    (∀ t ∈ [(⟨"a", "a", "today", 2, 1, none⟩ : SubeteTask),
        ⟨"b", "b", "today", 1, 0, none⟩, ⟨"c", "c", "today", 0, 0, none⟩],
      t.time = 0 → t.value = 0 →
      ∀ t2 ∈ [(⟨"a", "a", "today", 2, 1, none⟩ : SubeteTask),
        ⟨"b", "b", "today", 1, 0, none⟩, ⟨"c", "c", "today", 0, 0, none⟩],
        priorityOf t ≤ priorityOf t2)) :=
  ⟨by decide,
    sortTasksByPriority_spec
      [⟨"a", "a", "today", 2, 1, none⟩, ⟨"b", "b", "today", 1, 0, none⟩,
        ⟨"c", "c", "today", 0, 0, none⟩] (by decide)⟩

end SubeteTasks
